import Mathlib

/-!
Verification of the `flask_accepts` decorators (`accepts`, `responds`,
`_is_method`) via a shallow embedding of
`flask_accepts/decorators/decorators.py` and the test `Wrapper` class.

Python dictionaries holding error payloads are modelled as association
lists of string keys over a small JSON-like value type `J`; Python
exceptions carrying an optional `data` attribute become the structure
`PyErr`; the per-request mutation of `request.parsed_args` /
`request.parsed_obj` becomes explicit state passing on `Request`; the
order in which the decorator body acts is recorded in a trace of `Event`s.
-/

set_option autoImplicit false

namespace FlaskAccepts

/-- JSON-like values, enough to model reqparse error messages and
marshmallow error dictionaries. -/
inductive J where
  | null : J
  | str : String → J
  | arr : List J → J
  | obj : List (String × J) → J

/-- Python `d[k]` lookup on a dict modelled as an association list
(first binding wins; keys are unique in a real dict). -/
def jlookup : List (String × J) → String → Option J
  | [], _ => none
  | (k, v) :: rest, key => if k = key then some v else jlookup rest key

/-- Python `d[k] = v` / `d.update({k: v})`: overwrite the binding for `k`
in place if present, otherwise append it. -/
def jinsert : List (String × J) → String → J → List (String × J)
  | [], key, v => [(key, v)]
  | (k, w) :: rest, key, v =>
    if k = key then (k, v) :: rest else (k, w) :: jinsert rest key v

theorem jlookup_jinsert_self (m : List (String × J)) (k : String) (v : J) :
    jlookup (jinsert m k v) k = some v := by
  induction m with
  | nil => simp [jinsert, jlookup]
  | cons hd tl ih =>
    obtain ⟨k0, v0⟩ := hd
    by_cases h : k0 = k
    · simp [jinsert, jlookup, h]
    · simp [jinsert, jlookup, h, ih]

theorem jlookup_jinsert_ne (m : List (String × J)) (k k' : String) (v : J)
    (hne : k' ≠ k) : jlookup (jinsert m k v) k' = jlookup m k' := by
  induction m with
  | nil => simp [jinsert, jlookup, Ne.symm hne]
  | cons hd tl ih =>
    obtain ⟨k0, v0⟩ := hd
    by_cases h : k0 = k
    · subst h
      simp [jinsert, jlookup, Ne.symm hne]
    · by_cases h' : k0 = k'
      · simp [jinsert, jlookup, h, h', hne]
      · simp [jinsert, jlookup, h, h', ih]

/-- A Python exception as the decorator sees it: some identifying text and
an optional `data` attribute (a dict).  `data = none` models
`hasattr(error, "data") == False`. -/
structure PyErr where
  kind : String
  data : Option (List (String × J))


/-- The exception raised by `flask_restful` reqparse with `bundle_errors`:
an `HTTPException` whose `data` attribute is `{"message": {...}}`.  Any
other exception escaping `parse_args` carries no `data` attribute. -/
def WellFormedParseErr (e : PyErr) : Prop :=
  e.data = none ∨ ∃ d m, e.data = some d ∧ jlookup d "message" = some (J.obj m)

/-- The body of the `if err:` branch of `accepts.decorator.inner` applied
to an already-existing error:
`error.data["message"].update({"schema_errors": err})` when
`hasattr(error, "data")`, else `error.data = {"schema_errors": err}`.
Returns `none` when the Python code would itself crash with a `KeyError`
(a `data` attribute without a dict under `"message"`). -/
def addSchemaErrs (e : PyErr) (errv : J) : Option PyErr :=
  match e.data with
  | none => some { e with data := some [("schema_errors", errv)] }
  | some d =>
    match jlookup d "message" with
    | some (J.obj m) =>
      some { e with
             data := some (jinsert d "message"
                            (J.obj (jinsert m "schema_errors" errv))) }
    | _ => none

/-- The fresh `ValueError("Invalid parsing error.")` the decorator creates
when only the schema load failed, after `error.data = {"schema_errors": err}`. -/
def invalidParsingError (errv : J) : PyErr :=
  { kind := "ValueError: Invalid parsing error.",
    data := some [("schema_errors", errv)] }

/-- The mutable per-request state touched by `accepts.decorator.inner`:
the JSON body returned by `request.get_json()` and the two attributes the
decorator may attach. -/
structure Request (α β : Type) where
  body : J
  parsed_args : Option α
  parsed_obj : Option β


/-- Observable actions of one run of `accepts.decorator.inner`, in
execution order. -/
inductive Event where
  | parseArgsCalled
  | schemaLoadCalled
  | raisedErr
  | handlerCalled


/-- How one run of `accepts.decorator.inner` ends: the handler's return
value, an exception raised by `raise (error)`, or a `KeyError` escaping
from the merge line itself. -/
inductive Outcome (ρ : Type) where
  | ok : ρ → Outcome ρ
  | raised : PyErr → Outcome ρ
  | keyError : Outcome ρ


/-- Shallow embedding of `accepts.decorator.inner`.

`schema` is `schema(many:=·).load` when a schema was configured (a function
of the `many` flag and the JSON body, returning marshmallow 2's
`(obj, errors)` pair, with `none` for a falsy/empty errors dict), `parseArgs`
is the behaviour of `_parser.parse_args()` on this request, and `handler`
is the wrapped `func` reading the (mutated) request.  Returns the final
request state, the outcome, and the event trace. -/
def acceptsInner {α β ρ : Type}
    (schema : Option (Bool → J → β × Option J)) (many : Bool)
    (parseArgs : Except PyErr α)
    (req : Request α β) (handler : Request α β → ρ) :
    Request α β × Outcome ρ × List Event :=
  -- error = None; try: request.parsed_args = _parser.parse_args()
  -- except Exception as e: error = e
  let step1 : Request α β × Option PyErr :=
    match parseArgs with
    | .ok a => ({ req with parsed_args := some a }, none)
    | .error e => (req, some e)
  let req1 := step1.1
  let error := step1.2
  let ev1 := [Event.parseArgsCalled]
  match schema with
  | none =>
    match error with
    | some e => (req1, .raised e, ev1 ++ [Event.raisedErr])
    | none => (req1, .ok (handler req1), ev1 ++ [Event.handlerCalled])
  | some load =>
    -- obj, err = schema(many=many).load(request.get_json())
    let r := load many req1.body
    let obj := r.1
    let err := r.2
    let ev2 := ev1 ++ [Event.schemaLoadCalled]
    match err with
    | none =>
      -- request.parsed_obj = obj
      let req2 := { req1 with parsed_obj := some obj }
      match error with
      | some e => (req2, .raised e, ev2 ++ [Event.raisedErr])
      | none => (req2, .ok (handler req2), ev2 ++ [Event.handlerCalled])
    | some errv =>
      -- error = error or ValueError("Invalid parsing error."); merge
      let merged : Option PyErr :=
        match error with
        | none => some (invalidParsingError errv)
        | some e => addSchemaErrs e errv
      match merged with
      | none => (req1, .keyError, ev2)
      | some e2 =>
        -- request.parsed_obj = obj happens after the merge, before raise
        let req2 := { req1 with parsed_obj := some obj }
        (req2, .raised e2, ev2 ++ [Event.raisedErr])

/-- Shallow embedding of `_is_method`: the source inspects
`inspect.signature(func)` and returns `"self" in sig.parameters`, a
membership test over the declared parameter names. -/
def _is_method (params : List String) : Bool :=
  params.contains "self"

/-- A positional argument passed to `accepts(*args, ...)`: either a dict of
`add_argument` keyword parameters (payload `κ`) or a value of any other
type, distinguished by `isinstance(arg, dict)`. -/
inductive PosArg (κ : Type) where
  | dict : κ → PosArg κ
  | other : PosArg κ

/-- `query_params = [arg for arg in args if isinstance(arg, dict)]`. -/
def query_params {κ : Type} (args : List (PosArg κ)) : List κ :=
  args.filterMap (fun a => match a with | .dict d => some d | .other => none)

/-- The parser contents built at decoration time:
`for qp in query_params: _parser.add_argument(**qp, location="values")`. -/
def parserSpec {κ : Type} (args : List (PosArg κ)) : List (κ × String) :=
  (query_params args).map (fun d => (d, "values"))

/-- The test `Wrapper` class (`flask_accepts/test/wrapper.py`): a mutable
`value` slot and a `status` (default 200). -/
structure Wrapper (π : Type) where
  value : π
  status : Nat

/-- A werkzeug/Flask `Response` as far as the decorator observes it:
a body and a status code. -/
structure FResp (β : Type) where
  body : β
  status_code : Nat

/-- `flask.jsonify(serialized)`: a fresh JSON response with default
status 200. -/
def jsonify {δ : Type} (d : δ) : FResp δ :=
  { body := d, status_code := 200 }

/-- The possible dynamic types of the wrapped handler's return value as
tested by `responds.decorator.inner`: a Flask `Response` (body type `β`),
an instance of the configured wrapper class, or any other value
(payload type `π`). -/
inductive RetVal (β π : Type) where
  | response : FResp β → RetVal β π
  | wrapperInst : Wrapper π → RetVal β π
  | plain : π → RetVal β π

/-- What `responds.decorator.inner` returns: the untouched original
response, a `jsonify`-built response, the mutated wrapper object, or the
bare serialized payload. -/
inductive ROut (β δ : Type) where
  | resp : FResp β → ROut β δ
  | jsonResp : FResp δ → ROut β δ
  | wrapperOut : Wrapper δ → ROut β δ
  | raw : δ → ROut β δ

/-- Shallow embedding of `responds.decorator.inner`, applied to the value
`rv` returned by the wrapped handler.

`wrapperCfg` is whether a wrapper class was configured (`wrapper is not
None`); `dump` is `fun many v => schema(many=many).dump(v).data`, fallible
via `Except` since the decorator installs no handler around it;
`dumpOnWrapper` is the same schema dump applied to a wrapper object itself
(reached only when `rv` is a wrapper instance but no wrapper class was
configured, in which case the code falls through to plain serialization of
`rv`); `params` are the declared parameter names of `func`. -/
def respondsInner {β π δ ε : Type}
    (wrapperCfg : Bool) (many : Bool)
    (dump : Bool → π → Except ε δ)
    (dumpOnWrapper : Bool → Wrapper π → Except ε δ)
    (params : List String)
    (rv : RetVal β π) : Except ε (ROut β δ) :=
  match rv with
  -- if isinstance(rv, Response): return rv
  | .response r => .ok (.resp r)
  | .wrapperInst w =>
    -- if wrapper is not None and isinstance(rv, wrapper) == True:
    if wrapperCfg then
      -- rv.value = schema(many=many).dump(rv.value).data; return rv
      match dump many w.value with
      | .error exc => .error exc
      | .ok d => .ok (.wrapperOut { value := d, status := w.status })
    else
      match dumpOnWrapper many w with
      | .error exc => .error exc
      | .ok d =>
        if _is_method params then .ok (.raw d) else .ok (.jsonResp (jsonify d))
  | .plain v =>
    -- serialized = schema(many=many).dump(rv).data
    match dump many v with
    | .error exc => .error exc
    | .ok d =>
      -- if not _is_method(func): return jsonify(serialized); return serialized
      if _is_method params then .ok (.raw d) else .ok (.jsonResp (jsonify d))

/-! ## Claim theorems -/

/-- C3 (counterexample): the Method Detector does not test the *first*
parameter: on a callable with declared parameters `(x, self)` it reports
`true` although the first parameter is not named `self`. -/
theorem is_method_first_param_counterexample :
    _is_method ["x", "self"] = true ∧ ["x", "self"].head? ≠ some "self" := by
  constructor
  · rfl
  · decide

/-- C3 (amended): the Method Detector returns `true` iff the name `self`
occurs anywhere among the callable's declared parameter names; in
particular a callable whose first parameter is `self` is reported as a
method, but so is one having `self` in any later position. -/
theorem is_method_iff_some_param_named_self (params : List String) :
    _is_method params = true ↔ "self" ∈ params := by
  simp [_is_method, List.contains, List.elem_iff]

/-- C10: at decoration time only the positional arguments that are dicts
are registered with the parser (each with `location="values"`); a non-dict
positional argument anywhere in the list is silently dropped and leaves
the parser specification unchanged. -/
theorem accepts_registers_only_dict_args {κ : Type}
    (l1 l2 : List (PosArg κ)) (ds : List κ) :
    parserSpec (l1 ++ PosArg.other :: l2) = parserSpec (l1 ++ l2) ∧
    parserSpec (ds.map PosArg.dict) = ds.map (fun d => (d, "values")) := by
  constructor
  · simp [parserSpec, query_params]
  · have hc : ((fun a => match a with
        | PosArg.dict d => some d
        | PosArg.other => none) ∘ PosArg.dict) = fun d : κ => some d := rfl
    simp [parserSpec, query_params, List.filterMap_map, hc, List.filterMap_some]

/-- C6: a handler return value that is already a Flask `Response` is
passed through exactly as-is — for every configuration (wrapper class
present or not) and every schema dump function, so no serialization
touches it and the check precedes the carrier/plain branches. -/
theorem responds_passes_response_through {β π δ ε : Type}
    (wrapperCfg many : Bool) (dump : Bool → π → Except ε δ)
    (dumpOnWrapper : Bool → Wrapper π → Except ε δ)
    (params : List String) (r : FResp β) :
    respondsInner wrapperCfg many dump dumpOnWrapper params (.response r) =
      .ok (.resp r) := rfl

/-- C4: a return value that is neither a `Response` nor a wrapper
instance is serialized through the schema with the configured `many`
flag; the serialized payload is wrapped by `jsonify` (status 200) when
the handler is not detected as a method, and returned bare when it is. -/
theorem responds_serializes_plain_value {β π δ ε : Type}
    (wrapperCfg many : Bool) (dump : Bool → π → Except ε δ)
    (dumpOnWrapper : Bool → Wrapper π → Except ε δ)
    (params : List String) (v : π) (d : δ)
    (hdump : dump many v = .ok d) :
    respondsInner (β := β) wrapperCfg many dump dumpOnWrapper params (.plain v) =
      .ok (if _is_method params then ROut.raw d
           else ROut.jsonResp { body := d, status_code := 200 }) := by
  by_cases h : _is_method params <;>
    simp [respondsInner, hdump, jsonify, h]

/-- C4 witness: on a plain value with a method-detected handler the bare
serialized payload comes back; the dump used is the configured one. -/
theorem responds_serializes_plain_value_witness :
    ((fun (_ : Bool) (n : Nat) => (Except.ok (n + 1) : Except Unit Nat)) true 1 =
      Except.ok 2) ∧
    respondsInner (β := Unit) true true
        (fun _ n => (Except.ok (n + 1) : Except Unit Nat))
        (fun _ _ => Except.ok 0) ["self"] (RetVal.plain 1) =
      .ok (if _is_method ["self"] then ROut.raw 2
           else ROut.jsonResp { body := 2, status_code := 200 }) :=
  ⟨rfl, responds_serializes_plain_value true true _ _ ["self"] 1 2 rfl⟩

/-- C5: with a wrapper class configured, a wrapper-instance return value
has exactly its `value` slot replaced by the schema serialization (at the
configured `many`) of its previous contents; the object's `status` is
preserved, whatever the handler's parameters. -/
theorem responds_wrapper_serializes_value_preserves_status {β π δ ε : Type}
    (many : Bool) (dump : Bool → π → Except ε δ)
    (dumpOnWrapper : Bool → Wrapper π → Except ε δ)
    (params : List String) (w : Wrapper π) (d : δ)
    (hdump : dump many w.value = .ok d) :
    respondsInner (β := β) true many dump dumpOnWrapper params (.wrapperInst w) =
      .ok (.wrapperOut { value := d, status := w.status }) := by
  simp [respondsInner, hdump]

/-- C5 witness: a wrapper with status 418 keeps its status while its
value slot is replaced by the serialized form. -/
theorem responds_wrapper_serializes_value_preserves_status_witness :
    ((fun (_ : Bool) (n : Nat) => (Except.ok (n * 2) : Except Unit Nat)) true 5 =
      Except.ok 10) ∧
    respondsInner (β := Unit) true true
        (fun _ n => (Except.ok (n * 2) : Except Unit Nat))
        (fun _ _ => Except.ok 0) [] (RetVal.wrapperInst { value := 5, status := 418 }) =
      .ok (.wrapperOut { value := 10, status := 418 }) :=
  ⟨rfl, responds_wrapper_serializes_value_preserves_status true _ _ []
    { value := 5, status := 418 } 10 rfl⟩

/-- C8: the response decorator installs no error handling: whenever the
schema dump fails, the same failure escapes `respondsInner` unchanged, on
the plain branch, the configured-wrapper branch, and the fallthrough
branch that dumps a wrapper object with no wrapper class configured. -/
theorem responds_propagates_dump_failures {β π δ ε : Type}
    (wrapperCfg many : Bool) (dump : Bool → π → Except ε δ)
    (dumpOnWrapper : Bool → Wrapper π → Except ε δ)
    (params : List String) (v : π) (w w' : Wrapper π) (exc : ε) :
    (dump many v = .error exc →
      respondsInner (β := β) wrapperCfg many dump dumpOnWrapper params (.plain v) =
        .error exc) ∧
    (dump many w.value = .error exc →
      respondsInner (β := β) true many dump dumpOnWrapper params (.wrapperInst w) =
        .error exc) ∧
    (dumpOnWrapper many w' = .error exc →
      respondsInner (β := β) false many dump dumpOnWrapper params (.wrapperInst w') =
        .error exc) := by
  refine ⟨fun h => ?_, fun h => ?_, fun h => ?_⟩
  · by_cases hm : _is_method params <;> simp [respondsInner, h, hm]
  · simp [respondsInner, h]
  · by_cases hm : _is_method params <;> simp [respondsInner, h, hm]

/-- C8 witness: a dump that raises is propagated unchanged on all three
serialization branches. -/
theorem responds_propagates_dump_failures_witness :
    (respondsInner (β := Unit) true false
        (fun _ (_ : Nat) => (Except.error 9 : Except Nat Nat))
        (fun _ _ => Except.error 9) ["self"] (RetVal.plain 3) = .error 9) ∧
    (respondsInner (β := Unit) true false
        (fun _ (_ : Nat) => (Except.error 9 : Except Nat Nat))
        (fun _ _ => Except.error 9) ["self"]
        (RetVal.wrapperInst { value := 3, status := 200 }) = .error 9) ∧
    (respondsInner (β := Unit) false false
        (fun _ (_ : Nat) => (Except.error 9 : Except Nat Nat))
        (fun _ _ => Except.error 9) ["self"]
        (RetVal.wrapperInst { value := 3, status := 200 }) = .error 9) :=
  ⟨(responds_propagates_dump_failures true false _ _ ["self"] 3
      { value := 3, status := 200 } { value := 3, status := 200 } 9).1 rfl,
   (responds_propagates_dump_failures true false _ _ ["self"] 3
      { value := 3, status := 200 } { value := 3, status := 200 } 9).2.1 rfl,
   (responds_propagates_dump_failures false false _ _ ["self"] 3
      { value := 3, status := 200 } { value := 3, status := 200 } 9).2.2 rfl⟩

/-- The results `_parser.parse_args()` can actually produce: success, or
an exception that is well-formed in the sense of `WellFormedParseErr`. -/
def ParseResWF {α : Type} (pr : Except PyErr α) : Prop :=
  ∀ e, pr = .error e → WellFormedParseErr e

/-- C1: when both the argument parse and the schema load fail, a single
error is raised; its `data` keeps the parse error's `"message"` dict with
a `"schema_errors"` entry added for the schema failure, and every other
entry of the original message dict is preserved — neither failure source
is discarded. -/
theorem accepts_merges_schema_errors_into_parse_error {α β ρ : Type}
    (load : Bool → J → β × Option J) (many : Bool) (e : PyErr)
    (d m : List (String × J)) (req : Request α β) (handler : Request α β → ρ)
    (obj : β) (errv : J)
    (hdata : e.data = some d)
    (hmsg : jlookup d "message" = some (J.obj m))
    (hload : load many req.body = (obj, some errv)) :
    ∃ m',
      (acceptsInner (some load) many (.error e) req handler).2.1 =
        .raised { kind := e.kind,
                  data := some (jinsert d "message" (J.obj m')) } ∧
      jlookup m' "schema_errors" = some errv ∧
      ∀ k, k ≠ "schema_errors" → jlookup m' k = jlookup m k := by
  refine ⟨jinsert m "schema_errors" errv, ?_, jlookup_jinsert_self m _ errv,
    fun k hk => jlookup_jinsert_ne m _ k errv hk⟩
  simp [acceptsInner, hload, addSchemaErrs, hdata, hmsg]

/-- C1 witness: a reqparse-style error `{"message": {"foo": ...}}` plus a
schema failure yield one raised error whose message dict carries both the
original entry and the new `"schema_errors"` entry. -/
theorem accepts_merges_schema_errors_into_parse_error_witness :
    (({ kind := "HTTPException",
        data := some [("message", J.obj [("foo", J.str "missing")])] } :
          PyErr).data =
        some [("message", J.obj [("foo", J.str "missing")])]) ∧
    (jlookup [("message", J.obj [("foo", J.str "missing")])] "message" =
        some (J.obj [("foo", J.str "missing")])) ∧
    ((fun (_ : Bool) (_ : J) => ((0 : Nat), some (J.str "bad"))) true J.null =
        (0, some (J.str "bad"))) ∧
    ∃ m',
      (acceptsInner (α := Nat) (ρ := Nat)
          (some (fun _ _ => ((0 : Nat), some (J.str "bad")))) true
          (.error { kind := "HTTPException",
                    data := some [("message", J.obj [("foo", J.str "missing")])] })
          { body := J.null, parsed_args := none, parsed_obj := none }
          (fun _ => 0)).2.1 =
        .raised { kind := "HTTPException",
                  data := some (jinsert [("message", J.obj [("foo", J.str "missing")])]
                                  "message" (J.obj m')) } ∧
      jlookup m' "schema_errors" = some (J.str "bad") ∧
      ∀ k, k ≠ "schema_errors" →
        jlookup m' k = jlookup [("foo", J.str "missing")] k :=
  ⟨rfl, rfl, rfl,
   accepts_merges_schema_errors_into_parse_error _ true
     { kind := "HTTPException",
       data := some [("message", J.obj [("foo", J.str "missing")])] }
     [("message", J.obj [("foo", J.str "missing")])] [("foo", J.str "missing")]
     { body := J.null, parsed_args := none, parsed_obj := none }
     (fun _ => 0) 0 (J.str "bad") rfl rfl rfl⟩

/-- C2: the decorator is not fail-fast: an exception from the argument
parse is captured, the schema load still runs afterwards (it appears in
the trace after the parse), and the raise is the final event, after both
attempts have completed. -/
theorem accepts_runs_schema_load_before_raising {α β ρ : Type}
    (load : Bool → J → β × Option J) (many : Bool) (e : PyErr)
    (req : Request α β) (handler : Request α β → ρ)
    (hwf : WellFormedParseErr e) :
    ∃ e',
      (acceptsInner (some load) many (.error e) req handler).2.1 = .raised e' ∧
      (acceptsInner (some load) many (.error e) req handler).2.2 =
        [Event.parseArgsCalled, Event.schemaLoadCalled, Event.raisedErr] := by
  rcases hload : load many req.body with ⟨obj, err⟩
  cases err with
  | none => exact ⟨e, by simp [acceptsInner, hload]⟩
  | some errv =>
    rcases hwf with hnone | ⟨d, m, hd, hm⟩
    · exact ⟨{ e with data := some [("schema_errors", errv)] },
        by simp [acceptsInner, hload, addSchemaErrs, hnone]⟩
    · exact ⟨{ e with data := some (jinsert d "message"
          (J.obj (jinsert m "schema_errors" errv))) },
        by simp [acceptsInner, hload, addSchemaErrs, hd, hm]⟩

/-- C2 witness: with a data-less parse error and a failing schema load,
the trace is parse, then schema load, then raise. -/
theorem accepts_runs_schema_load_before_raising_witness :
    WellFormedParseErr { kind := "TypeError", data := none } ∧
    ∃ e',
      (acceptsInner (α := Nat) (ρ := Nat)
          (some (fun _ _ => ((0 : Nat), some (J.str "bad")))) false
          (.error { kind := "TypeError", data := none })
          { body := J.null, parsed_args := none, parsed_obj := none }
          (fun _ => 0)).2.1 = .raised e' ∧
      (acceptsInner (α := Nat) (ρ := Nat)
          (some (fun _ _ => ((0 : Nat), some (J.str "bad")))) false
          (.error { kind := "TypeError", data := none })
          { body := J.null, parsed_args := none, parsed_obj := none }
          (fun _ => 0)).2.2 =
        [Event.parseArgsCalled, Event.schemaLoadCalled, Event.raisedErr] :=
  ⟨Or.inl rfl,
   accepts_runs_schema_load_before_raising _ false
     { kind := "TypeError", data := none }
     { body := J.null, parsed_args := none, parsed_obj := none }
     (fun _ => 0) (Or.inl rfl)⟩

/-- C7: on a fully successful invocation the parsed arguments (and, with
a schema configured, the loaded object) are attached to the request
before the handler runs — the handler sees the updated request — and the
handler's return value comes back unchanged. -/
theorem accepts_success_attaches_state_then_calls_handler {α β ρ : Type}
    (load : Bool → J → β × Option J) (many : Bool) (a : α)
    (req : Request α β) (handler : Request α β → ρ) (obj : β)
    (hload : load many req.body = (obj, none)) :
    (acceptsInner (some load) many (.ok a) req handler =
      ({ req with parsed_args := some a, parsed_obj := some obj },
       .ok (handler { req with parsed_args := some a, parsed_obj := some obj }),
       [Event.parseArgsCalled, Event.schemaLoadCalled, Event.handlerCalled])) ∧
    (acceptsInner none many (.ok a) req handler =
      ({ req with parsed_args := some a },
       .ok (handler { req with parsed_args := some a }),
       [Event.parseArgsCalled, Event.handlerCalled])) := by
  constructor
  · simp [acceptsInner, hload]
  · simp [acceptsInner]

/-- C7 witness: the handler observes `parsed_args = some 7` and
`parsed_obj = some 42`, and its return value is passed through. -/
theorem accepts_success_attaches_state_then_calls_handler_witness :
    ((fun (_ : Bool) (_ : J) => ((42 : Nat), (none : Option J))) false J.null =
      (42, none)) ∧
    acceptsInner (α := Nat) (some (fun _ _ => ((42 : Nat), (none : Option J))))
        false (.ok 7)
        { body := J.null, parsed_args := none, parsed_obj := none }
        (fun r => r.parsed_args) =
      ({ body := J.null, parsed_args := some 7, parsed_obj := some 42 },
       .ok (some 7),
       [Event.parseArgsCalled, Event.schemaLoadCalled, Event.handlerCalled]) :=
  ⟨rfl,
   (accepts_success_attaches_state_then_calls_handler
     (fun _ _ => ((42 : Nat), (none : Option J))) false 7
     { body := J.null, parsed_args := none, parsed_obj := none }
     (fun r => r.parsed_args) 42 rfl).1⟩

/-- C9: when the schema load reports validation errors, the request's
`parsed_obj` attribute is still assigned the loaded object, and the run
nevertheless ends in a raise — the request state is mutated before the
aggregated error propagates. -/
theorem accepts_sets_parsed_obj_despite_schema_errors {α β ρ : Type}
    (load : Bool → J → β × Option J) (many : Bool) (pr : Except PyErr α)
    (req : Request α β) (handler : Request α β → ρ) (obj : β) (errv : J)
    (hwf : ParseResWF pr)
    (hload : load many req.body = (obj, some errv)) :
    (acceptsInner (some load) many pr req handler).1.parsed_obj = some obj ∧
    ∃ e', (acceptsInner (some load) many pr req handler).2.1 = .raised e' := by
  cases pr with
  | ok a => simp [acceptsInner, hload, invalidParsingError]
  | error e =>
    rcases hwf e rfl with hnone | ⟨d, m, hd, hm⟩
    · simp [acceptsInner, hload, addSchemaErrs, hnone]
    · simp [acceptsInner, hload, addSchemaErrs, hd, hm]

/-- C9 witness: a successful argument parse plus a failing schema load
leave `parsed_obj` assigned while the run ends in a raise. -/
theorem accepts_sets_parsed_obj_despite_schema_errors_witness :
    ParseResWF (α := Nat) (.ok 7) ∧
    ((fun (_ : Bool) (_ : J) => ((42 : Nat), some (J.str "bad"))) false J.null =
      (42, some (J.str "bad"))) ∧
    (acceptsInner (α := Nat) (ρ := Nat)
        (some (fun _ _ => ((42 : Nat), some (J.str "bad")))) false (.ok 7)
        { body := J.null, parsed_args := none, parsed_obj := none }
        (fun _ => 0)).1.parsed_obj = some 42 ∧
    ∃ e',
      (acceptsInner (some (fun _ _ => ((42 : Nat), some (J.str "bad")))) false
          (.ok (7 : Nat))
          { body := J.null, parsed_args := none, parsed_obj := none }
          (fun _ => (0 : Nat))).2.1 = .raised e' :=
  ⟨(fun _ h => Except.noConfusion h), rfl,
   (accepts_sets_parsed_obj_despite_schema_errors _ false (.ok 7)
     { body := J.null, parsed_args := none, parsed_obj := none }
     (fun _ => 0) 42 (J.str "bad") (fun _ h => Except.noConfusion h) rfl).1,
   (accepts_sets_parsed_obj_despite_schema_errors _ false (.ok 7)
     { body := J.null, parsed_args := none, parsed_obj := none }
     (fun _ => 0) 42 (J.str "bad") (fun _ h => Except.noConfusion h) rfl).2⟩

end FlaskAccepts
